import Mathlib

/-
Verification development for the ScalableDataAPI repository.

Shallow embedding of: the gRPC data service (`app/dataservice/server.py`),
the HTTP facade (`app/api/main.py`), the batch consumer
(`app/worker/worker.py`) and the record-store operations
(`app/models/blogs.py`).  Datetimes are modelled as integer microsecond
timestamps; ISO-8601 parsing (Python `datetime.fromisoformat`, which can
fail) is modelled as an arbitrary partial function `String → Option Int`.
-/

namespace ScalableDataAPI

/-- Association-list lookup, first binding wins; embeds a Python `dict`
(`d.get(k)` / `d[k]`), whose keys are unique. -/
def lookupA {α β : Type} [DecidableEq α] : List (α × β) → α → Option β
  | [], _ => none
  | (a, b) :: t, k => if a = k then some b else lookupA t k

/-- Lookup with a default; embeds `d.get(k, default)` and
`collections.defaultdict` reads. -/
def lookupD {α β : Type} [DecidableEq α] (l : List (α × β)) (k : α) (d : β) : β :=
  (lookupA l k).getD d

/-- Set a key to a value, replacing the first binding or appending a new
one; embeds `d[k] = v` on a Python `dict`. -/
def setA {α β : Type} [DecidableEq α] : List (α × β) → α → β → List (α × β)
  | [], k, v => [(k, v)]
  | (a, b) :: t, k, v => if a = k then (k, v) :: t else (a, b) :: setA t k v

/-- Remove every binding of a key; embeds `d.pop(k, None)` on a Python
`dict` (whose keys are unique). -/
def removeA {α β : Type} [DecidableEq α] (l : List (α × β)) (k : α) : List (α × β) :=
  l.filter (fun p => decide (p.1 ≠ k))

theorem lookupA_setA_self {α β : Type} [DecidableEq α] (l : List (α × β)) (k : α) (v : β) :
    lookupA (setA l k v) k = some v := by
  induction l with
  | nil => simp [setA, lookupA]
  | cons p t ih =>
    by_cases h : p.1 = k
    · simp [setA, h, lookupA]
    · simp [setA, h, lookupA, ih]

theorem lookupA_removeA_self {α β : Type} [DecidableEq α] (l : List (α × β)) (k : α) :
    lookupA (removeA l k) k = none := by
  induction l with
  | nil => simp [removeA, lookupA]
  | cons p t ih =>
    by_cases h : p.1 = k
    · simpa [removeA, h] using ih
    · simpa [removeA, List.filter, h, lookupA] using ih

/-- Embeds Python `str.strip()`: remove leading and trailing whitespace
(over the ASCII whitespace characters recognised by `Char.isWhitespace`). -/
def strip (s : String) : String :=
  String.mk (((s.data.dropWhile Char.isWhitespace).reverse.dropWhile Char.isWhitespace).reverse)

theorem strip_empty : strip "" = "" := rfl

/-- gRPC status codes used by the service (`grpc.StatusCode`). -/
inductive StatusCode
  | invalidArgument
  | notFound
  | internal
  | unavailable
deriving DecidableEq, Repr

/-- An error surfaced through `context.abort` or raised by the backend,
seen by the facade as a `grpc.aio.AioRpcError`. -/
structure GrpcError where
  code : StatusCode
  msg : String
deriving DecidableEq, Repr

/-- The `BlogCreateRequest` protobuf message: proto3 string fields, with
`""` standing for an absent optional field. -/
structure BlogCreateRequest where
  client_msg_id : String
  author : String
  content : String
  genre : String
  location : String
  created_at_iso : String
deriving DecidableEq, Repr

/-- Response of `EnqueueBlog` (`BlogEnqueueResponse`). -/
structure EnqueueResp where
  enqueued : Bool
  stream : String
  message_id : String
deriving DecidableEq, Repr

/-- Operations issued to the stream bus (Redis), in program order. -/
inductive BusOp
  | sadd (setName member : String)
  | xadd (stream : String) (fields : List (String × String)) (maxlen : Nat) (approximate : Bool)
deriving DecidableEq, Repr

/-- Embeds `DataService._stream_for_genre`. -/
def stream_for_genre (genre : String) : String :=
  "blogs:genre:" ++ genre

/-- The validation condition of `DataService.EnqueueBlog`
(`server.py` lines 65-72): `genre`, `location`, `author` are stripped,
`content` is taken verbatim, and the request is rejected when any of the
four is empty. -/
def createValidationFails (req : BlogCreateRequest) : Bool :=
  strip req.genre == "" || strip req.location == "" ||
    strip req.author == "" || req.content == ""

/-- Embeds `DataService.EnqueueBlog` (`server.py` lines 63-88).
`uuid` stands for `str(uuid.uuid4())`, `nowIso` for `_now_iso()`,
`entryId` for the entry id Redis assigns to the `XADD`, and `maxlen` for
`self.stream_maxlen`.  Returns the gRPC outcome together with the trace
of bus operations issued. -/
def EnqueueBlog (req : BlogCreateRequest) (uuid nowIso entryId : String) (maxlen : Nat) :
    Except GrpcError (EnqueueResp × List BusOp) :=
  let client_msg_id := if req.client_msg_id == "" then uuid else req.client_msg_id
  let genre := strip req.genre
  let location := strip req.location
  let author := strip req.author
  let content := req.content
  let created_at_iso := if req.created_at_iso == "" then nowIso else req.created_at_iso
  if createValidationFails req then
    Except.error { code := StatusCode.invalidArgument,
                   msg := "author, content, genre, location are required" }
  else
    let stream := stream_for_genre genre
    let fields := [("client_msg_id", client_msg_id), ("author", author),
                   ("content", content), ("genre", genre), ("location", location),
                   ("created_at_iso", created_at_iso)]
    Except.ok ({ enqueued := true, stream := stream, message_id := entryId },
               [BusOp.sadd "blogs:genres" genre,
                BusOp.xadd stream fields maxlen true])

/-- Default configuration values from `app/common/config.py`. -/
structure Settings where
  stream_maxlen : Nat
  batch_max_count : Nat
  batch_max_age_ms : Int
  batch_max_bytes : Nat
deriving DecidableEq, Repr

/-- The defaults declared in `Settings` in `app/common/config.py`. -/
def defaultSettings : Settings :=
  { stream_maxlen := 200000
    batch_max_count := 1000
    batch_max_age_ms := 300
    batch_max_bytes := 2097152 }

theorem createValidationFails_iff (req : BlogCreateRequest) :
    createValidationFails req = true ↔
      (strip req.author = "" ∨ req.content = "" ∨ strip req.genre = "" ∨
        strip req.location = "") := by
  simp only [createValidationFails, Bool.or_eq_true, beq_iff_eq]
  tauto

/-- Claim C4: the ingest endpoint trims whitespace from genre, location
and author (content is taken verbatim), rejects with invalid-argument
exactly when one of author, content, genre, location is empty after that
trimming, and accepts every request in which all four are non-empty after
trimming. -/
theorem enqueue_validation (req : BlogCreateRequest) (uuid nowIso entryId : String)
    (maxlen : Nat) :
    ((∃ e, EnqueueBlog req uuid nowIso entryId maxlen = Except.error e ∧
        e.code = StatusCode.invalidArgument) ↔
      (strip req.author = "" ∨ req.content = "" ∨ strip req.genre = "" ∨
        strip req.location = "")) ∧
    ((strip req.author ≠ "" ∧ strip req.content ≠ "" ∧ strip req.genre ≠ "" ∧
        strip req.location ≠ "") →
      (EnqueueBlog req uuid nowIso entryId maxlen).isOk = true) := by
  constructor
  · rw [← createValidationFails_iff]
    cases h : createValidationFails req with
    | false =>
      simp only [EnqueueBlog, h, Bool.false_eq_true, if_false, iff_false]
      rintro ⟨e, he, _⟩
      exact Except.noConfusion he
    | true =>
      simp only [EnqueueBlog, h, if_true]
      exact iff_of_true ⟨_, rfl, rfl⟩ trivial
  · rintro ⟨ha, hc, hg, hl⟩
    have hc' : req.content ≠ "" := by
      intro h
      exact hc (by rw [h]; rfl)
    have h : createValidationFails req = false := by
      rw [← Bool.not_eq_true, createValidationFails_iff]
      tauto
    simp [EnqueueBlog, h, Except.isOk, Except.toBool]

theorem enqueue_validation_witness :
    (EnqueueBlog ⟨"", " a ", "hi", " g1", "l1 ", ""⟩ "u" "t" "1-1" 5).isOk = true := by
  exact (enqueue_validation ⟨"", " a ", "hi", " g1", "l1 ", ""⟩ "u" "t" "1-1" 5).2
    (by refine ⟨?_, ?_, ?_, ?_⟩ <;> decide)

/-- Claim C5: for every valid ingest request the endpoint issues exactly
the `SADD` of the genre to the category registry followed by the `XADD`
of the six record fields to `blogs:genre:<genre>` capped approximately at
`maxlen` (default 200,000), and returns the stream name and the
bus-assigned entry id; the trace shape shows the registry add is never
skipped when the append is attempted. -/
theorem enqueue_registry_then_append (req : BlogCreateRequest)
    (uuid nowIso entryId : String) (maxlen : Nat)
    (ha : strip req.author ≠ "") (hc : req.content ≠ "")
    (hg : strip req.genre ≠ "") (hl : strip req.location ≠ "") :
    EnqueueBlog req uuid nowIso entryId maxlen =
      Except.ok
        ({ enqueued := true, stream := stream_for_genre (strip req.genre),
           message_id := entryId },
         [BusOp.sadd "blogs:genres" (strip req.genre),
          BusOp.xadd (stream_for_genre (strip req.genre))
            [("client_msg_id", if req.client_msg_id == "" then uuid else req.client_msg_id),
             ("author", strip req.author), ("content", req.content),
             ("genre", strip req.genre), ("location", strip req.location),
             ("created_at_iso", if req.created_at_iso == "" then nowIso else req.created_at_iso)]
            maxlen true]) ∧
    defaultSettings.stream_maxlen = 200000 := by
  have h : createValidationFails req = false := by
    rw [← Bool.not_eq_true, createValidationFails_iff]
    tauto
  exact ⟨by simp [EnqueueBlog, h], rfl⟩

theorem enqueue_registry_then_append_witness :
    EnqueueBlog ⟨"cm", "a", "hi", "g1", "l1", "t0"⟩ "u" "t" "7-0" 9 =
      Except.ok
        ({ enqueued := true, stream := "blogs:genre:g1", message_id := "7-0" },
         [BusOp.sadd "blogs:genres" "g1",
          BusOp.xadd "blogs:genre:g1"
            [("client_msg_id", "cm"), ("author", "a"), ("content", "hi"),
             ("genre", "g1"), ("location", "l1"), ("created_at_iso", "t0")]
            9 true]) := by
  have h := (enqueue_registry_then_append ⟨"cm", "a", "hi", "g1", "l1", "t0"⟩ "u" "t" "7-0" 9
    (by decide) (by decide) (by decide) (by decide)).1
  simpa using h

/-- Embeds the `BlogRow` dataclass of `app/models/blogs.py`; datetimes
are integer microsecond timestamps, `client_msg_id` is `str | None`. -/
structure BlogRow where
  client_msg_id : Option String
  author : String
  created_at : Int
  updated_at : Int
  genre : String
  location : String
  content : String
deriving DecidableEq, Repr

/-- Embeds the `BufferedItem` dataclass of `app/worker/worker.py`. -/
structure BufferedItem where
  row : BlogRow
  redis_stream : String
  redis_message_id : String
deriving DecidableEq, Repr

/-- A `(genre, location)` buffer key. -/
abbrev BufKey := String × String

/-- The mutable buffer state of `BlogWorker`: `self.buffers`
(a `defaultdict(list)`), `self.buffer_first_at` (a `dict`) and
`self.buffer_bytes` (a `defaultdict(int)`). -/
structure WorkerState where
  buffers : List (BufKey × List BufferedItem)
  buffer_first_at : List (BufKey × Int)
  buffer_bytes : List (BufKey × Nat)
deriving DecidableEq, Repr

/-- Field lookup with Python `fields.get(k, "")` semantics. -/
def fieldD (fields : List (String × String)) (k : String) : String :=
  lookupD fields k ""

/-- The approximate byte cost a buffered message adds to its key's
accumulator (`worker.py` line 94). -/
def byteCost (fields : List (String × String)) : Nat :=
  (fieldD fields "content").length + (fieldD fields "author").length +
    (fieldD fields "location").length + (fieldD fields "genre").length + 64

/-- Embeds `BlogWorker._add_to_buffer` (`worker.py` lines 69-95).
`parse` stands for `datetime.fromisoformat` (which may fail) and `now`
for `datetime.now(timezone.utc)`; an absent `created_at_iso`
(`dict.get` returning `None`) also makes `fromisoformat` raise, so both
fall back to `now`. -/
def addToBuffer (parse : String → Option Int) (now : Int) (st : WorkerState)
    (stream mid : String) (fields : List (String × String)) : WorkerState :=
  let genre := fieldD fields "genre"
  let location := fieldD fields "location"
  let author := fieldD fields "author"
  let content := fieldD fields "content"
  let client_msg_id := lookupA fields "client_msg_id"
  let created_at :=
    match lookupA fields "created_at_iso" with
    | none => now
    | some s => (parse s).getD now
  let row : BlogRow :=
    { client_msg_id := client_msg_id, author := author, created_at := created_at,
      updated_at := now, genre := genre, location := location, content := content }
  let key : BufKey := (genre, location)
  let item : BufferedItem := { row := row, redis_stream := stream, redis_message_id := mid }
  { buffers := setA st.buffers key (lookupD st.buffers key [] ++ [item])
    buffer_first_at :=
      if (lookupA st.buffer_first_at key).isSome then st.buffer_first_at
      else setA st.buffer_first_at key now
    buffer_bytes := setA st.buffer_bytes key (lookupD st.buffer_bytes key 0 + byteCost fields) }

/-- Embeds `BlogWorker._should_flush` (`worker.py` lines 97-108): a key
flushes only when its buffer is non-empty and the count, age or byte
threshold is reached. -/
def shouldFlush (cfg : Settings) (st : WorkerState) (key : BufKey) (now : Int) : Bool :=
  let items := lookupD st.buffers key []
  if items = [] then false
  else if cfg.batch_max_count ≤ items.length then true
  else if (match lookupA st.buffer_first_at key with
           | some f => decide (cfg.batch_max_age_ms * 1000 ≤ now - f)
           | none => false) then true
  else decide (cfg.batch_max_bytes ≤ lookupD st.buffer_bytes key 0)

/-- One serialized row of the `rows_json` payload built by
`BlogWorker._flush_key` (`worker.py` lines 120-131); `r.client_msg_id or
""` defaults the optional id to the empty string, and the two timestamps
are kept as the microsecond instants that `_format_dt` renders. -/
structure RowJson where
  client_msg_id : String
  author : String
  created_at : Int
  updated_at : Int
  genre : String
  location : String
  content : String
deriving DecidableEq, Repr

/-- Serialization of one buffered item into the bulk-insert payload. -/
def toRowJson (bi : BufferedItem) : RowJson :=
  { client_msg_id := bi.row.client_msg_id.getD ""
    author := bi.row.author
    created_at := bi.row.created_at
    updated_at := bi.row.updated_at
    genre := bi.row.genre
    location := bi.row.location
    content := bi.row.content }

/-- Build `stream_to_mids` (`worker.py` lines 138-140): group the items'
message ids by source stream, preserving first-seen stream order and
intra-stream arrival order, as a Python `defaultdict(list)` does. -/
def groupAdd (acc : List (String × List String)) (s mid : String) :
    List (String × List String) :=
  match acc with
  | [] => [(s, [mid])]
  | (a, ms) :: t => if a = s then (a, ms ++ [mid]) :: t else (a, ms) :: groupAdd t s mid

/-- Group all buffered items by their source stream. -/
def groupByStream (items : List BufferedItem) : List (String × List String) :=
  items.foldl (fun acc bi => groupAdd acc bi.redis_stream bi.redis_message_id) []

/-- Outcome of the per-stream `xack`/`xdel` pair inside the
`try/except` of `_flush_key`: both succeed, `xack` raises (so `xdel` is
not reached), or `xack` succeeds and `xdel` raises. -/
inductive AckOutcome
  | ok
  | ackFails
  | delFails
deriving DecidableEq, Repr

/-- Externally visible events of one `_flush_key` call, in program
order. -/
inductive FlushEv
  | insertCommitted (rows : List RowJson)
  | insertFailed (rows : List RowJson)
  | acked (stream : String) (mids : List String)
  | ackError (stream : String)
  | deleted (stream : String) (mids : List String)
  | delError (stream : String)
deriving DecidableEq, Repr

/-- The bus events produced for one stream group, given the outcome of
its `xack`/`xdel` pair. -/
def ackEventsFor (ackOut : String → AckOutcome) (p : String × List String) : List FlushEv :=
  match ackOut p.1 with
  | AckOutcome.ok => [FlushEv.acked p.1 p.2, FlushEv.deleted p.1 p.2]
  | AckOutcome.ackFails => [FlushEv.ackError p.1]
  | AckOutcome.delFails => [FlushEv.acked p.1 p.2, FlushEv.delError p.1]

/-- Embeds `BlogWorker._flush_key` (`worker.py` lines 115-151).
`insertOk` is the outcome of the `sp_bulk_insert_blogs` transaction: when
it fails, the exception propagates out of the function (the run loop
catches it at `worker.py` lines 180-182), so no ack is issued and the
buffer state is untouched; when it commits, acks and deletes are
attempted per stream with failures swallowed, and the key's buffer,
first-insert timestamp and byte accumulator are reset. -/
def flushKey (st : WorkerState) (key : BufKey) (insertOk : Bool)
    (ackOut : String → AckOutcome) : WorkerState × List FlushEv :=
  let items := lookupD st.buffers key []
  if items = [] then (st, [])
  else
    let rows := items.map toRowJson
    if insertOk then
      let evs := (groupByStream items).flatMap (ackEventsFor ackOut)
      ({ buffers := setA st.buffers key []
         buffer_first_at := removeA st.buffer_first_at key
         buffer_bytes := setA st.buffer_bytes key 0 },
       FlushEv.insertCommitted rows :: evs)
    else (st, [FlushEv.insertFailed rows])

theorem flushKey_events_head (st : WorkerState) (key : BufKey)
    (ackOut : String → AckOutcome) (ev : FlushEv) (i : Nat)
    (h : ((flushKey st key true ackOut).2).get? i = some ev) :
    ((flushKey st key true ackOut).2).get? 0 =
      some (FlushEv.insertCommitted ((lookupD st.buffers key []).map toRowJson)) := by
  unfold flushKey at h ⊢
  by_cases hne : lookupD st.buffers key [] = []
  · simp [hne] at h
  · simp [hne]

/-- Claim C2: in every flush, an ack event can only occur strictly after
the bulk-insert commit event; and when the bulk insert fails, the flush
emits no ack, leaves the whole worker state (buffer, first-insert
timestamp, byte accumulator) unchanged, so the retried flush is over
exactly the same items. -/
theorem flush_ack_after_commit (st : WorkerState) (key : BufKey)
    (ackOut : String → AckOutcome) :
    (∀ (insertOk : Bool) (i : Nat) (s : String) (mids : List String),
      ((flushKey st key insertOk ackOut).2).get? i = some (FlushEv.acked s mids) →
        ∃ j, j < i ∧ ∃ rows,
          ((flushKey st key insertOk ackOut).2).get? j = some (FlushEv.insertCommitted rows)) ∧
    ((flushKey st key false ackOut).1 = st ∧
      (∀ (i : Nat) (s : String) (mids : List String),
        ((flushKey st key false ackOut).2).get? i ≠ some (FlushEv.acked s mids))) := by
  refine ⟨?_, ?_, ?_⟩
  · intro insertOk i s mids h
    cases insertOk with
    | false =>
      exfalso
      unfold flushKey at h
      by_cases hne : lookupD st.buffers key [] = []
      · simp [hne] at h
      · simp [hne] at h
        match i, h with
        | 0, h => simp [List.get?] at h
        | n + 1, h => simp [List.get?] at h
    | true =>
      have h0 := flushKey_events_head st key ackOut _ i h
      refine ⟨0, ?_, _, h0⟩
      cases i with
      | zero =>
        exfalso
        rw [h0] at h
        exact FlushEv.noConfusion (Option.some.inj h)
      | succ n => exact Nat.succ_pos n
  · unfold flushKey
    by_cases hne : lookupD st.buffers key [] = []
    · simp [hne]
    · simp [hne]
  · intro i s mids h
    unfold flushKey at h
    by_cases hne : lookupD st.buffers key [] = []
    · simp [hne] at h
    · simp [hne] at h
      match i, h with
      | 0, h => simp [List.get?] at h
      | n + 1, h => simp [List.get?] at h

theorem flush_ack_after_commit_witness :
    ∃ j, j < 1 ∧ ∃ rows,
      ((flushKey
          { buffers := [(("g", "l"),
              [{ row := { client_msg_id := some "c", author := "a", created_at := 1,
                          updated_at := 2, genre := "g", location := "l", content := "x" },
                 redis_stream := "blogs:genre:g", redis_message_id := "1-0" }])]
            buffer_first_at := [(("g", "l"), 1)]
            buffer_bytes := [(("g", "l"), 68)] }
          ("g", "l") true (fun _ => AckOutcome.ok)).2).get? j =
        some (FlushEv.insertCommitted rows) := by
  exact (flush_ack_after_commit _ ("g", "l") (fun _ => AckOutcome.ok)).1 true 1
    "blogs:genre:g" ["1-0"] (by decide)

/-- Claim C7: after a successful flush of a non-empty key — whatever
happens to the per-stream ack and delete calls — the key's buffer list is
empty, its first-insert timestamp is cleared and its byte accumulator is
zero. -/
theorem flush_success_resets (st : WorkerState) (key : BufKey)
    (ackOut : String → AckOutcome)
    (hne : lookupD st.buffers key [] ≠ []) :
    lookupD ((flushKey st key true ackOut).1).buffers key [] = [] ∧
    lookupA ((flushKey st key true ackOut).1).buffer_first_at key = none ∧
    lookupD ((flushKey st key true ackOut).1).buffer_bytes key 0 = 0 := by
  unfold flushKey
  rw [if_neg hne]
  simp [lookupD, lookupA_setA_self, lookupA_removeA_self]

theorem flush_success_resets_witness :
    lookupD ((flushKey
        { buffers := [(("g", "l"),
            [{ row := { client_msg_id := none, author := "a", created_at := 1,
                        updated_at := 2, genre := "g", location := "l", content := "x" },
               redis_stream := "blogs:genre:g", redis_message_id := "1-0" }])]
          buffer_first_at := [(("g", "l"), 1)]
          buffer_bytes := [(("g", "l"), 68)] }
        ("g", "l") true (fun _ => AckOutcome.delFails)).1).buffers ("g", "l") [] = [] := by
  exact (flush_success_resets _ ("g", "l") (fun _ => AckOutcome.delFails) (by decide)).1

/-- Claim C3: a key is eligible to flush exactly when its buffer is
non-empty and the count, age or byte threshold is met (given the key's
recorded first-insert timestamp `f`), and buffering one message grows the
key's byte accumulator by `len(content) + len(author) + len(location) +
len(genre) + 64`. -/
theorem should_flush_iff (cfg : Settings) (st : WorkerState) (key : BufKey)
    (now f : Int) (hf : lookupA st.buffer_first_at key = some f) :
    (shouldFlush cfg st key now = true ↔
      (lookupD st.buffers key [] ≠ [] ∧
        (cfg.batch_max_count ≤ (lookupD st.buffers key []).length ∨
         cfg.batch_max_age_ms * 1000 ≤ now - f ∨
         cfg.batch_max_bytes ≤ lookupD st.buffer_bytes key 0))) ∧
    (∀ (parse : String → Option Int) (now2 : Int) (st2 : WorkerState)
        (stream mid : String) (fields : List (String × String)),
      lookupD (addToBuffer parse now2 st2 stream mid fields).buffer_bytes
          (fieldD fields "genre", fieldD fields "location") 0 =
        lookupD st2.buffer_bytes (fieldD fields "genre", fieldD fields "location") 0 +
          ((fieldD fields "content").length + (fieldD fields "author").length +
            (fieldD fields "location").length + (fieldD fields "genre").length + 64)) := by
  constructor
  · unfold shouldFlush
    simp only [hf]
    by_cases h1 : lookupD st.buffers key [] = []
    · simp [h1]
    · by_cases h2 : cfg.batch_max_count ≤ (lookupD st.buffers key []).length
      · simp [h1, h2]
      · by_cases h3 : cfg.batch_max_age_ms * 1000 ≤ now - f
        · simp [h1, h2, h3]
        · simp [h1, h2, h3]
  · intro parse now2 st2 stream mid fields
    simp only [addToBuffer, lookupD, lookupA_setA_self, Option.getD_some]
    rfl

theorem should_flush_iff_witness :
    shouldFlush defaultSettings
      { buffers := [(("g", "l"),
          [{ row := { client_msg_id := none, author := "a", created_at := 0,
                      updated_at := 0, genre := "g", location := "l", content := "x" },
             redis_stream := "blogs:genre:g", redis_message_id := "1-0" }])]
        buffer_first_at := [(("g", "l"), 0)]
        buffer_bytes := [(("g", "l"), 68)] }
      ("g", "l") 300000 = true := by
  exact (should_flush_iff defaultSettings _ ("g", "l") 300000 0 (by decide)).1.mpr
    (by refine ⟨by decide, Or.inr (Or.inl (by decide))⟩)

/-- A persisted row of the `blogs` table: the columns named by
`INSERT_SQL` and the select statements in `app/models/blogs.py`, plus
the store-assigned auto-increment `id`. -/
structure StoredRow where
  id : Nat
  client_msg_id : Option String
  author : String
  created_at : Int
  updated_at : Int
  genre : String
  location : String
  content : String
deriving DecidableEq, Repr

/-- The `blogs` table with its auto-increment counter; `client_msg_id`
carries a unique index (spec section 6 persisted-state layout), nullable
and unique when present. -/
structure Table where
  rows : List StoredRow
  next_id : Nat
deriving DecidableEq, Repr

/-- The freshly inserted row for one incoming `BlogRow`. -/
def newRow (t : Table) (r : BlogRow) : StoredRow :=
  { id := t.next_id, client_msg_id := r.client_msg_id, author := r.author,
    created_at := r.created_at, updated_at := r.updated_at, genre := r.genre,
    location := r.location, content := r.content }

/-- Effect of inserting one row under `INSERT_SQL`
(`app/models/blogs.py` lines 22-27): `INSERT ... ON DUPLICATE KEY UPDATE
updated_at = VALUES(updated_at)` against the unique index on
`client_msg_id`.  A `NULL` `client_msg_id` never collides; on a
collision only `updated_at` of the existing row is replaced and no row
is inserted. -/
def insertOne (t : Table) (r : BlogRow) : Table :=
  match r.client_msg_id with
  | none => { rows := t.rows ++ [newRow t r], next_id := t.next_id + 1 }
  | some c =>
    if t.rows.any (fun s => decide (s.client_msg_id = some c)) then
      { rows := t.rows.map (fun s =>
          if s.client_msg_id = some c then { s with updated_at := r.updated_at } else s)
        next_id := t.next_id }
    else { rows := t.rows ++ [newRow t r], next_id := t.next_id + 1 }

/-- Embeds `bulk_insert` (`app/models/blogs.py` lines 35-53): one
multi-row `INSERT_SQL` statement, whose effect is the left-to-right
composition of the single-row effects. -/
def bulkInsert (t : Table) (rows : List BlogRow) : Table :=
  rows.foldl insertOne t

/-- Claim C6: inserting a row whose `client_msg_id` collides with an
existing row replaces only that row's `updated_at` with the incoming
value, leaves every other column of every row unchanged, and creates no
second row. -/
theorem insert_duplicate_absorbed (t : Table) (r : BlogRow) (c : String)
    (hr : r.client_msg_id = some c) (s0 : StoredRow) (hs0 : s0 ∈ t.rows)
    (hc0 : s0.client_msg_id = some c) :
    (insertOne t r).rows.length = t.rows.length ∧
    (insertOne t r).next_id = t.next_id ∧
    (insertOne t r).rows = t.rows.map (fun s =>
      if s.client_msg_id = some c then { s with updated_at := r.updated_at } else s) ∧
    (∀ s ∈ t.rows, s.client_msg_id ≠ some c → s ∈ (insertOne t r).rows) ∧
    (∀ s ∈ t.rows, s.client_msg_id = some c →
      ({ id := s.id, client_msg_id := s.client_msg_id, author := s.author,
         created_at := s.created_at, updated_at := r.updated_at, genre := s.genre,
         location := s.location, content := s.content } : StoredRow) ∈ (insertOne t r).rows) := by
  have hany : t.rows.any (fun s => decide (s.client_msg_id = some c)) = true := by
    rw [List.any_eq_true]
    exact ⟨s0, hs0, by simp [hc0]⟩
  have hins : insertOne t r =
      { rows := t.rows.map (fun s =>
          if s.client_msg_id = some c then { s with updated_at := r.updated_at } else s)
        next_id := t.next_id } := by
    unfold insertOne
    rw [hr]
    simp only [hany, if_true]
  rw [hins]
  refine ⟨by simp, rfl, rfl, ?_, ?_⟩
  · intro s hs hne
    simp only [List.mem_map]
    exact ⟨s, hs, by simp [hne]⟩
  · intro s hs hcs
    simp only [List.mem_map]
    refine ⟨s, hs, ?_⟩
    simp [hcs]

theorem insert_duplicate_absorbed_witness :
    (insertOne
        { rows := [{ id := 1, client_msg_id := some "cm", author := "a", created_at := 5,
                     updated_at := 6, genre := "g", location := "l", content := "x" }],
          next_id := 2 }
        { client_msg_id := some "cm", author := "other", created_at := 50,
          updated_at := 60, genre := "g2", location := "l2", content := "y" }).rows =
      [{ id := 1, client_msg_id := some "cm", author := "a", created_at := 5,
         updated_at := 60, genre := "g", location := "l", content := "x" }] := by
  have h := (insert_duplicate_absorbed
    { rows := [{ id := 1, client_msg_id := some "cm", author := "a", created_at := 5,
                 updated_at := 6, genre := "g", location := "l", content := "x" }],
      next_id := 2 }
    { client_msg_id := some "cm", author := "other", created_at := 50,
      updated_at := 60, genre := "g2", location := "l2", content := "y" }
    "cm" rfl _ (List.mem_singleton.mpr rfl) rfl).2.2.1
  rw [h]
  decide

/-- Modelled from the spec: the `CreateBlogSync` gRPC method is not
present under `src/` — only its HTTP caller (`create_blog` in
`app/api/main.py`, which invokes `stub.CreateBlogSync`) and spec section
4.2 describe it.  Per the spec: same validation as the ingest endpoint
(section 4.1), then a single-row insert through the Record Store's
bulk-insert operation (here `bulkInsert` with a one-element list, equal
to `insertOne`) in a single transaction; returns the assigned `id`; does
not publish to the stream bus (empty `BusOp` trace).  `uuid` stands for
a fresh random identifier, `now` for the current UTC instant and `parse`
for ISO-8601 parsing. -/
def CreateBlogSync (req : BlogCreateRequest) (uuid : String) (now : Int)
    (parse : String → Option Int) (t : Table) :
    Except GrpcError (Nat × Table) × List BusOp :=
  let client_msg_id := if req.client_msg_id == "" then uuid else req.client_msg_id
  if createValidationFails req then
    (Except.error { code := StatusCode.invalidArgument,
                    msg := "author, content, genre, location are required" }, [])
  else
    let created_at :=
      if req.created_at_iso == "" then now else (parse req.created_at_iso).getD now
    let row : BlogRow :=
      { client_msg_id := some client_msg_id, author := strip req.author,
        created_at := created_at, updated_at := now, genre := strip req.genre,
        location := strip req.location, content := req.content }
    (Except.ok (t.next_id, bulkInsert t [row]), [])

/-- Claim C1: the sync create endpoint rejects exactly when the ingest
endpoint does (same validation), never publishes to the stream bus, its
store write is the bulk-insert operation applied to a one-element list,
and for every valid request whose client message id is fresh it succeeds,
appending exactly one row and returning that row's assigned id. -/
theorem sync_create_ok (req : BlogCreateRequest) (uuid : String) (now : Int)
    (parse : String → Option Int) (t : Table)
    (ha : strip req.author ≠ "") (hc : req.content ≠ "")
    (hg : strip req.genre ≠ "") (hl : strip req.location ≠ "")
    (hfresh : ∀ s ∈ t.rows, s.client_msg_id ≠
      some (if req.client_msg_id == "" then uuid else req.client_msg_id)) :
    (∀ (r : BlogCreateRequest) (u : String) (n : Int) (p : String → Option Int)
        (t2 : Table) (ni ei : String) (ml : Nat),
      ((CreateBlogSync r u n p t2).1).isOk = (EnqueueBlog r u ni ei ml).isOk) ∧
    (∀ (tb : Table) (rw : BlogRow), bulkInsert tb [rw] = insertOne tb rw) ∧
    (CreateBlogSync req uuid now parse t).2 = [] ∧
    (CreateBlogSync req uuid now parse t).1 =
      Except.ok (t.next_id,
        { rows := t.rows ++
            [{ id := t.next_id,
               client_msg_id := some (if req.client_msg_id == "" then uuid else req.client_msg_id),
               author := strip req.author,
               created_at := if req.created_at_iso == "" then now
                             else (parse req.created_at_iso).getD now,
               updated_at := now, genre := strip req.genre,
               location := strip req.location, content := req.content }],
          next_id := t.next_id + 1 }) := by
  have hv : createValidationFails req = false := by
    rw [← Bool.not_eq_true, createValidationFails_iff]
    tauto
  refine ⟨?_, fun tb rw => rfl, ?_, ?_⟩
  · intro r u n p t2 ni ei ml
    cases h : createValidationFails r with
    | false => simp [CreateBlogSync, EnqueueBlog, h, Except.isOk, Except.toBool]
    | true => simp [CreateBlogSync, EnqueueBlog, h, Except.isOk, Except.toBool]
  · simp [CreateBlogSync, hv]
  · have hnone : t.rows.any (fun s => decide (s.client_msg_id =
        some (if req.client_msg_id == "" then uuid else req.client_msg_id))) = false := by
      rw [← Bool.not_eq_true, List.any_eq_true]
      rintro ⟨s, hs, hdec⟩
      exact hfresh s hs (of_decide_eq_true hdec)
    simp only [CreateBlogSync, hv, Bool.false_eq_true, if_false, bulkInsert,
      List.foldl_cons, List.foldl_nil, insertOne, hnone, newRow]

theorem sync_create_ok_witness :
    (CreateBlogSync ⟨"cm", "a", "hi", "g1", "l1", ""⟩ "u" 7 (fun _ => none)
        { rows := [], next_id := 1 }).1 =
      Except.ok (1,
        { rows := [{ id := 1, client_msg_id := some "cm", author := "a", created_at := 7,
                     updated_at := 7, genre := "g1", location := "l1", content := "hi" }],
          next_id := 2 }) := by
  have h := (sync_create_ok ⟨"cm", "a", "hi", "g1", "l1", ""⟩ "u" 7 (fun _ => none)
    { rows := [], next_id := 1 } (by decide) (by decide) (by decide) (by decide)
    (by intro s hs; exact absurd hs (List.not_mem_nil s))).2.2.2
  rw [h]
  rfl

/-- Embeds the FastAPI query-parameter validation of `list_blogs`
(`app/api/main.py` lines 136-137): `limit: int = Query(default=50, ge=1,
le=500)` and `offset: int = Query(default=0, ge=0)`.  A constraint
violation is a request-validation error (HTTP 422) and no backend query
is issued; an accepted pair is forwarded unchanged. -/
def list_blogs_validate (limit offset : Int) : Except String (Int × Int) :=
  if limit < 1 then Except.error "limit must be greater than or equal to 1"
  else if 500 < limit then Except.error "limit must be less than or equal to 500"
  else if offset < 0 then Except.error "offset must be greater than or equal to 0"
  else Except.ok (limit, offset)

/-- Counterexample to claim C8: the facade does not clamp an
out-of-range `limit` into [1, 500] — at `limit = 501, offset = 0` the
request is rejected by validation and no query with an in-range limit is
produced. -/
theorem list_blogs_not_clamped :
    ¬ (∀ limit offset : Int, 0 ≤ offset →
        ∃ p, list_blogs_validate limit offset = Except.ok p ∧ 1 ≤ p.1 ∧ p.1 ≤ 500) := by
  intro h
  obtain ⟨p, hp, _, _⟩ := h 501 0 (by decide)
  rw [show list_blogs_validate 501 0 =
    Except.error "limit must be less than or equal to 500" from rfl] at hp
  exact Except.noConfusion hp

/-- Claim C8 as amended: the facade validates rather than clamps —
`list_blogs` accepts exactly the requests with `limit` in [1, 500] and
`offset ≥ 0`, rejecting the rest with a validation error, and every
accepted request reaches the backend query with its limit unchanged and
inside [1, 500]. -/
theorem list_blogs_limit_validated (limit offset : Int) :
    ((list_blogs_validate limit offset).isOk = true ↔
      (1 ≤ limit ∧ limit ≤ 500 ∧ 0 ≤ offset)) ∧
    (∀ p, list_blogs_validate limit offset = Except.ok p →
      p = (limit, offset) ∧ 1 ≤ p.1 ∧ p.1 ≤ 500) := by
  constructor
  · unfold list_blogs_validate
    by_cases h1 : limit < 1
    · simp [h1, Except.isOk, Except.toBool]
      try omega
    · by_cases h2 : 500 < limit
      · simp [h1, h2, Except.isOk, Except.toBool]
        try omega
      · by_cases h3 : offset < 0
        · simp [h1, h2, h3, Except.isOk, Except.toBool]
          try omega
        · simp [h1, h2, h3, Except.isOk, Except.toBool]
          try omega
  · intro p hp
    unfold list_blogs_validate at hp
    by_cases h1 : limit < 1
    · rw [if_pos h1] at hp
      exact Except.noConfusion hp
    · by_cases h2 : 500 < limit
      · rw [if_neg h1, if_pos h2] at hp
        exact Except.noConfusion hp
      · by_cases h3 : offset < 0
        · rw [if_neg h1, if_neg h2, if_pos h3] at hp
          exact Except.noConfusion hp
        · rw [if_neg h1, if_neg h2, if_neg h3] at hp
          cases hp
          exact ⟨rfl, by omega, by omega⟩

theorem list_blogs_limit_validated_witness :
    (list_blogs_validate 500 0).isOk = true ∧ (list_blogs_validate 501 0).isOk = false := by
  constructor
  · exact (list_blogs_limit_validated 500 0).1.mpr ⟨by decide, by decide, by decide⟩
  · have h := (list_blogs_limit_validated 501 0).1
    rw [← Bool.not_eq_true]
    intro hk
    have := h.mp hk
    omega

/-- The HTTP response mapping of `create_blog` (`app/api/main.py` lines
105-106): every `grpc.aio.AioRpcError`, whatever its status code, is
re-raised as `HTTPException(status_code=400)`. -/
def create_blog_http_error (_e : GrpcError) : Nat := 400

/-- The HTTP response mapping of `get_blog` (`app/api/main.py` lines
114-117): NOT_FOUND becomes 404, every other gRPC error becomes 500. -/
def get_blog_http_error (e : GrpcError) : Nat :=
  if e.code = StatusCode.notFound then 404 else 500

/-- The HTTP response mapping of `list_blogs` (`app/api/main.py` lines
148-149): every gRPC error becomes 500. -/
def list_blogs_http_error (_e : GrpcError) : Nat := 500

/-- The HTTP response mapping of `update_blog` (`app/api/main.py` lines
175-178): NOT_FOUND becomes 404, every other gRPC error becomes 500. -/
def update_blog_http_error (e : GrpcError) : Nat :=
  if e.code = StatusCode.notFound then 404 else 500

/-- The HTTP response mapping of `delete_blog` (`app/api/main.py` lines
187-190): NOT_FOUND becomes 404, every other gRPC error becomes 500. -/
def delete_blog_http_error (e : GrpcError) : Nat :=
  if e.code = StatusCode.notFound then 404 else 500

/-- The HTTP response mapping of `bulk_delete` (`app/api/main.py` lines
201-202): every gRPC error becomes 500. -/
def bulk_delete_http_error (_e : GrpcError) : Nat := 500

/-- The HTTP response mapping of `bulk_update` (`app/api/main.py` lines
216-217): every gRPC error becomes 500. -/
def bulk_update_http_error (_e : GrpcError) : Nat := 500

/-- Counterexample to claim C9: on the create endpoint a backend error
that is neither a validation error nor a not-found outcome — here an
INTERNAL store error — is mapped to HTTP 400, not 500. -/
theorem create_blog_maps_store_error_to_400 :
    ¬ (∀ e : GrpcError, e.code ≠ StatusCode.invalidArgument →
        e.code ≠ StatusCode.notFound → create_blog_http_error e ≠ 400) := by
  intro h
  exact h { code := StatusCode.internal, msg := "store unavailable" }
    (by decide) (by decide) rfl

/-- Claim C9 as amended: the read, update, delete and bulk endpoints map
a not-found backend outcome to 404 (where a single row is addressed) and
every other backend error to 500 — never 400 — while the create endpoint
maps every backend error, including store errors, to 400. -/
theorem facade_error_mapping (e : GrpcError) :
    (e.code ≠ StatusCode.notFound →
      (get_blog_http_error e = 500 ∧ update_blog_http_error e = 500 ∧
        delete_blog_http_error e = 500)) ∧
    (e.code = StatusCode.notFound →
      (get_blog_http_error e = 404 ∧ update_blog_http_error e = 404 ∧
        delete_blog_http_error e = 404)) ∧
    list_blogs_http_error e = 500 ∧
    bulk_delete_http_error e = 500 ∧
    bulk_update_http_error e = 500 ∧
    create_blog_http_error e = 400 := by
  refine ⟨?_, ?_, rfl, rfl, rfl, rfl⟩
  · intro h
    simp [get_blog_http_error, update_blog_http_error, delete_blog_http_error, h]
  · intro h
    simp [get_blog_http_error, update_blog_http_error, delete_blog_http_error, h]

theorem facade_error_mapping_witness :
    get_blog_http_error { code := StatusCode.internal, msg := "boom" } = 500 ∧
    get_blog_http_error { code := StatusCode.notFound, msg := "Not found" } = 404 := by
  exact ⟨(facade_error_mapping { code := StatusCode.internal, msg := "boom" }).1
      (by decide) |>.1,
    (facade_error_mapping { code := StatusCode.notFound, msg := "Not found" }).2.1
      rfl |>.1⟩

/-- Embeds `_iso_to_dt` (`server.py` lines 42-51): an empty (absent)
string or a string `datetime.fromisoformat` rejects falls back to the
current UTC time. -/
def iso_to_dt (parse : String → Option Int) (now : Int) (s : String) : Int :=
  if s == "" then now
  else match parse s with
    | some t => t
    | none => now

/-- The arguments of the `sp_update_blog_content` call issued by
`DataService.UpdateBlog` (`server.py` lines 139-142). -/
structure UpdateCall where
  id : Int
  content : String
  updated_at : Int
deriving DecidableEq, Repr

/-- Embeds `DataService.UpdateBlog` (`server.py` lines 134-147):
computes `updated_at` via `_iso_to_dt`, invokes the store's
update-content procedure, and aborts with NOT_FOUND exactly when the
procedure reports zero rows updated.  `storeUpdated` is the `updated`
count the procedure returns. -/
def UpdateBlog (parse : String → Option Int) (now : Int) (id : Int)
    (content updated_at_iso : String) (storeUpdated : Nat) :
    UpdateCall × Except GrpcError Bool :=
  let updated_at := iso_to_dt parse now updated_at_iso
  ({ id := id, content := content, updated_at := updated_at },
   if storeUpdated = 0 then
     Except.error { code := StatusCode.notFound, msg := "Not found" }
   else Except.ok true)

/-- Claim C10: an absent or unparsable `updated_at_iso` is silently
replaced by the current UTC time in the store call, and `UpdateBlog`
never rejects a request with a validation error — its only error outcome
is NOT_FOUND. -/
theorem update_blog_never_validation_error (parse : String → Option Int)
    (now : Int) (id : Int) (content updated_at_iso : String) (storeUpdated : Nat) :
    ((updated_at_iso = "" ∨ parse updated_at_iso = none) →
      (UpdateBlog parse now id content updated_at_iso storeUpdated).1.updated_at = now) ∧
    (∀ e, (UpdateBlog parse now id content updated_at_iso storeUpdated).2 =
        Except.error e →
      e.code = StatusCode.notFound ∧ e.code ≠ StatusCode.invalidArgument) := by
  constructor
  · rintro (h | h)
    · simp [UpdateBlog, iso_to_dt, h]
    · by_cases he : updated_at_iso = ""
      · simp [UpdateBlog, iso_to_dt, he]
      · simp [UpdateBlog, iso_to_dt, he, h]
  · intro e he
    unfold UpdateBlog at he
    by_cases h0 : storeUpdated = 0
    · rw [if_pos h0] at he
      cases he
      exact ⟨rfl, by decide⟩
    · rw [if_neg h0] at he
      exact Except.noConfusion he

theorem update_blog_never_validation_error_witness :
    (UpdateBlog (fun _ => none) 42 7 "new" "not-a-date" 1).1.updated_at = 42 := by
  exact (update_blog_never_validation_error (fun _ => none) 42 7 "new" "not-a-date" 1).1
    (Or.inr rfl)

end ScalableDataAPI
